import Mathlib

/-!
Shallow embedding of `src/bin/remote_check.py` from the vmchecker
repository.  The script reads a homework configuration file (its path is
`sys.argv[1]`), resolves the job name from its `DEFAULT` section, looks up
four options (`RemoteIP`, `RemoteQueue`, `RemoteUser`, `RemoteNotifier`)
in the job's section of the global `vmchecker.ini`, then invokes
`scp` and, if that succeeds, `ssh`, mapping non-zero exit codes of either
to its own exit code 1.

The embedding models one whole execution of `main()` as a pure function
from a `World` (the command line, the parsed configuration contents and
the exit codes the operating system returns for the two external
processes) to an `ExecResult` recording the outcome, the messages printed
to standard error, the configuration files read, and the external command
vectors invoked, in order.
-/

namespace RemoteCheck

/-- Python truthiness restricted to the values flowing through the script:
`None` and the empty string are falsy, every other string is truthy
(used by the four `assert` statements on lines 32-41). -/
def truthy : Option String → Bool
  | none => false
  | some s => !(s == "")

/-- The two-argument case of Python's `os.path.join` (POSIX flavour), as
used on line 54: if the second component is absolute it replaces the
first; otherwise a `/` separator is inserted unless the first component
is empty or already ends with `/`. -/
def os_path_join (a b : String) : String :=
  if b.data.head? = some '/' then b
  else if a = "" ∨ a.data.getLast? = some '/' then a ++ b
  else a ++ "/" ++ b

/-- Modelled from the spec: `misc.get_option` lives in `misc.py`, which is
not part of the sources given; per the spec it is "a generic
section/option reader (`misc.get_option`) that looks up
`(section=job, option)` in the global config".  A configuration is
modelled as a partial map from section name and option name to a string
value; `get_option` performs the lookup. -/
def get_option (conf : String → String → Option String)
    (sect opt : String) : Option String :=
  conf sect opt

/-- Everything an execution of the script depends on: the program name
(`sys.argv[0]`), the remaining command-line arguments, the path returned
by `misc.find_config_file('vmchecker.ini')`, the `Job` value of the
homework file's `DEFAULT` section (`none` when the key is absent), the
contents of the global configuration, and the exit codes the operating
system hands back for the `scp` and the `ssh` child process. -/
structure World where
  prog : String
  args : List String
  configPath : String
  homeworkJob : Option String
  globalConf : String → String → Option String
  scpExit : Int
  sshExit : Int

/-- How an execution of `main()` ends: `exited c` for `sys.exit(c)` or
falling off the end of `main` (code 0), `raised m` for an uncaught Python
exception (a failed `assert` or a missing `Job` option), which makes the
interpreter terminate the process with exit code 1. -/
inductive Outcome where
  | exited (code : Nat)
  | raised (msg : String)
deriving DecidableEq

/-- The observable behaviour of one execution: final outcome, lines
printed to standard error, configuration files read, and the argument
vectors of the external processes invoked, in program order. -/
structure ExecResult where
  outcome : Outcome
  stderrMsgs : List String
  readFiles : List String
  calls : List (List String)
deriving DecidableEq

/-- The process exit code the operating system observes for an outcome:
the code of `sys.exit`, and 1 for an uncaught exception. -/
def processExitCode : Outcome → Nat
  | .exited c => c
  | .raised _ => 1

/-- Line-by-line embedding of `main()` (lines 16-59 of
`src/bin/remote_check.py`). -/
def main (w : World) : ExecResult :=
  match w.args with
  | [] =>
      { outcome := .exited 1
        stderrMsgs := ["Usage: " ++ w.prog ++ " homework_config_file"]
        readFiles := []
        calls := [] }
  | hwfile :: _ =>
      let reads := [hwfile, w.configPath]
      match w.homeworkJob with
      | none =>
          { outcome := .raised "ConfigParser.NoOptionError: Job"
            stderrMsgs := []
            readFiles := reads
            calls := [] }
      | some job =>
          let remote_ip := get_option w.globalConf job "RemoteIP"
          if truthy remote_ip then
            let remote_queue := get_option w.globalConf job "RemoteQueue"
            if truthy remote_queue then
              let remote_user := get_option w.globalConf job "RemoteUser"
              if truthy remote_user then
                let remote_notifier := get_option w.globalConf job "RemoteNotifier"
                if truthy remote_notifier then
                  let ip := remote_ip.getD ""
                  let queue := remote_queue.getD ""
                  let user := remote_user.getD ""
                  let notifier := remote_notifier.getD ""
                  let scpCmd := ["scp", hwfile, user ++ "@" ++ ip ++ ":" ++ queue]
                  if w.scpExit ≠ 0 then
                    { outcome := .exited 1
                      stderrMsgs := ["Eroare la copierea temei pe masina de testare"]
                      readFiles := reads
                      calls := [scpCmd] }
                  else
                    let sshCmd := ["ssh", user ++ "@" ++ ip, os_path_join queue notifier]
                    if w.sshExit ≠ 0 then
                      { outcome := .exited 1
                        stderrMsgs := ["Nu am putut invoca programul de notificare"]
                        readFiles := reads
                        calls := [scpCmd, sshCmd] }
                    else
                      { outcome := .exited 0
                        stderrMsgs := ["Tema a fost copiata cu succes"]
                        readFiles := reads
                        calls := [scpCmd, sshCmd] }
                else
                  { outcome := .raised "AssertionError: No notifier supplied"
                    stderrMsgs := []
                    readFiles := reads
                    calls := [] }
              else
                { outcome := .raised "AssertionError: No remote user supplied"
                  stderrMsgs := []
                  readFiles := reads
                  calls := [] }
            else
              { outcome := .raised "AssertionError: No queue on remote machine"
                stderrMsgs := []
                readFiles := reads
                calls := [] }
          else
            { outcome := .raised "AssertionError: No ip for remote machine"
              stderrMsgs := []
              readFiles := reads
              calls := [] }

/-- A global configuration matching the spec's concrete scenario: section
`hw1` carries the four remote options. -/
def sampleConf : String → String → Option String := fun sect opt =>
  if sect = "hw1" then
    if opt = "RemoteIP" then some "10.0.0.5"
    else if opt = "RemoteQueue" then some "/srv/queue"
    else if opt = "RemoteUser" then some "grader"
    else if opt = "RemoteNotifier" then some "notify.sh"
    else none
  else none

/-- A fully well-formed world used to exercise the theorems on concrete
inputs. -/
def baseWorld : World :=
  { prog := "remote_check"
    args := ["hw.ini"]
    configPath := "/etc/vmchecker/vmchecker.ini"
    homeworkJob := some "hw1"
    globalConf := sampleConf
    scpExit := 0
    sshExit := 0 }

/-- C7: with zero command-line arguments (`sys.argv = [prog]`, so
`w.args = []`) the program prints the usage line to standard error, exits
with code 1, reads no configuration file and invokes no external
process. -/
theorem usage_error (w : World) (hargs : w.args = []) :
    main w = { outcome := .exited 1
               stderrMsgs := ["Usage: " ++ w.prog ++ " homework_config_file"]
               readFiles := []
               calls := [] } := by
  obtain ⟨prog, args, cpath, hwJob, gconf, scpE, sshE⟩ := w
  subst hargs
  rfl

/-- witness for C7 at a concrete world. -/
theorem usage_error_witness :
    main { baseWorld with args := [] } =
      { outcome := .exited 1
        stderrMsgs := ["Usage: remote_check homework_config_file"]
        readFiles := []
        calls := [] } :=
  usage_error { baseWorld with args := [] } rfl

/-- C10: with two or more command-line arguments, the extra arguments are
ignored: the execution is identical to the one where only the first
argument is supplied (so the first argument is used as the homework
config path and no usage error occurs). -/
theorem extra_args_ignored (w : World) (f r : String) (rest : List String)
    (hargs : w.args = f :: r :: rest) :
    main w = main { w with args := [f] } := by
  obtain ⟨prog, args, cpath, hwJob, gconf, scpE, sshE⟩ := w
  subst hargs
  rfl

/-- witness for C10 at a concrete world. -/
theorem extra_args_ignored_witness :
    main { baseWorld with args := ["hw.ini", "extra1", "extra2"] } =
      main { baseWorld with args := ["hw.ini"] } :=
  extra_args_ignored { baseWorld with args := ["hw.ini", "extra1", "extra2"] }
    "hw.ini" "extra1" ["extra2"] rfl

/-- C6: when the homework configuration has no `Job` value in its default
section, the execution ends in an uncaught exception (so the process
fails) and no external process is invoked. -/
theorem missing_job_aborts (w : World) (f : String) (rest : List String)
    (hargs : w.args = f :: rest) (hjob : w.homeworkJob = none) :
    (∃ m, (main w).outcome = .raised m) ∧ (main w).calls = [] := by
  obtain ⟨prog, args, cpath, hwJob, gconf, scpE, sshE⟩ := w
  subst hargs hjob
  exact ⟨⟨"ConfigParser.NoOptionError: Job", rfl⟩, rfl⟩

/-- witness for C6 at a concrete world. -/
theorem missing_job_aborts_witness :
    (∃ m, (main { baseWorld with homeworkJob := none }).outcome = .raised m) ∧
      (main { baseWorld with homeworkJob := none }).calls = [] :=
  missing_job_aborts { baseWorld with homeworkJob := none } "hw.ini" [] rfl rfl

/-- C8: every execution ends with process exit code 0 or 1: `sys.exit(1)`
on the explicit error paths, exit code 1 for an uncaught exception, and
exit code 0 when `main` falls off its end. -/
theorem exit_code_zero_or_one (w : World) :
    processExitCode (main w).outcome = 0 ∨ processExitCode (main w).outcome = 1 := by
  obtain ⟨prog, args, cpath, hwJob, gconf, scpE, sshE⟩ := w
  rcases args with _ | ⟨f, rest⟩
  · right; rfl
  rcases hwJob with _ | job
  · right; rfl
  by_cases h1 : truthy (get_option gconf job "RemoteIP") = true <;>
    by_cases h2 : truthy (get_option gconf job "RemoteQueue") = true <;>
      by_cases h3 : truthy (get_option gconf job "RemoteUser") = true <;>
        by_cases h4 : truthy (get_option gconf job "RemoteNotifier") = true <;>
          by_cases h5 : scpE = 0 <;> by_cases h6 : sshE = 0 <;>
            simp [main, h1, h2, h3, h4, h5, h6, processExitCode]

/-- C1: in every execution where the `scp` call returns a non-zero exit
code (the call having happened, i.e. the invoked-command list is
non-empty), the program prints the copy-error message to standard error,
exits with code 1, and the only external command invoked is the `scp`
one — `ssh` is never attempted. -/
theorem scp_failure_stops_before_ssh (w : World) (hscp : w.scpExit ≠ 0)
    (hcalls : (main w).calls ≠ []) :
    (main w).outcome = .exited 1 ∧
    (main w).stderrMsgs = ["Eroare la copierea temei pe masina de testare"] ∧
    (main w).calls.length = 1 ∧
    ∀ c ∈ (main w).calls, c.head? = some "scp" := by
  obtain ⟨prog, args, cpath, hwJob, gconf, scpE, sshE⟩ := w
  rcases args with _ | ⟨f, rest⟩
  · exact absurd rfl hcalls
  rcases hwJob with _ | job
  · exact absurd rfl hcalls
  by_cases h1 : truthy (get_option gconf job "RemoteIP") = true <;>
    by_cases h2 : truthy (get_option gconf job "RemoteQueue") = true <;>
      by_cases h3 : truthy (get_option gconf job "RemoteUser") = true <;>
        by_cases h4 : truthy (get_option gconf job "RemoteNotifier") = true <;>
          simp_all [main, h1, h2, h3, h4, hscp]

/-- witness for C1 at a concrete world. -/
theorem scp_failure_stops_before_ssh_witness :
    (main { baseWorld with scpExit := 1 }).outcome = .exited 1 ∧
    (main { baseWorld with scpExit := 1 }).stderrMsgs =
      ["Eroare la copierea temei pe masina de testare"] ∧
    (main { baseWorld with scpExit := 1 }).calls.length = 1 ∧
    ∀ c ∈ (main { baseWorld with scpExit := 1 }).calls, c.head? = some "scp" :=
  scp_failure_stops_before_ssh { baseWorld with scpExit := 1 }
    (by decide) (by decide)

/-- C4: in every execution where the `scp` call returns 0 but the `ssh`
call returns non-zero (both calls having happened), the program prints
the notifier-error message to standard error, exits with code 1, and
invokes no further external process: exactly the two commands `scp` and
`ssh` are ever run, so the remote copy is not undone. -/
theorem ssh_failure_exits_one (w : World) (hscp : w.scpExit = 0)
    (hssh : w.sshExit ≠ 0) (hcalls : (main w).calls ≠ []) :
    (main w).outcome = .exited 1 ∧
    (main w).stderrMsgs = ["Nu am putut invoca programul de notificare"] ∧
    (main w).calls.length = 2 := by
  obtain ⟨prog, args, cpath, hwJob, gconf, scpE, sshE⟩ := w
  rcases args with _ | ⟨f, rest⟩
  · exact absurd rfl hcalls
  rcases hwJob with _ | job
  · exact absurd rfl hcalls
  by_cases h1 : truthy (get_option gconf job "RemoteIP") = true <;>
    by_cases h2 : truthy (get_option gconf job "RemoteQueue") = true <;>
      by_cases h3 : truthy (get_option gconf job "RemoteUser") = true <;>
        by_cases h4 : truthy (get_option gconf job "RemoteNotifier") = true <;>
          simp_all [main, h1, h2, h3, h4, hscp, hssh]

/-- witness for C4 at a concrete world. -/
theorem ssh_failure_exits_one_witness :
    (main { baseWorld with sshExit := 1 }).outcome = .exited 1 ∧
    (main { baseWorld with sshExit := 1 }).stderrMsgs =
      ["Nu am putut invoca programul de notificare"] ∧
    (main { baseWorld with sshExit := 1 }).calls.length = 2 :=
  ssh_failure_exits_one { baseWorld with sshExit := 1 }
    (by decide) (by decide) (by decide)

/-- C3: in every execution where both external calls happen (two invoked
commands) and both return exit code 0, the program prints the success
message exactly once, on standard error only, and terminates with exit
code 0. -/
theorem full_success (w : World) (hscp : w.scpExit = 0) (hssh : w.sshExit = 0)
    (hcalls : (main w).calls.length = 2) :
    (main w).outcome = .exited 0 ∧
    (main w).stderrMsgs = ["Tema a fost copiata cu succes"] := by
  obtain ⟨prog, args, cpath, hwJob, gconf, scpE, sshE⟩ := w
  rcases args with _ | ⟨f, rest⟩
  · simp [main] at hcalls
  rcases hwJob with _ | job
  · simp [main] at hcalls
  by_cases h1 : truthy (get_option gconf job "RemoteIP") = true <;>
    by_cases h2 : truthy (get_option gconf job "RemoteQueue") = true <;>
      by_cases h3 : truthy (get_option gconf job "RemoteUser") = true <;>
        by_cases h4 : truthy (get_option gconf job "RemoteNotifier") = true <;>
          simp_all [main, h1, h2, h3, h4, hscp, hssh]

/-- witness for C3 at a concrete world. -/
theorem full_success_witness :
    (main baseWorld).outcome = .exited 0 ∧
    (main baseWorld).stderrMsgs = ["Tema a fost copiata cu succes"] :=
  full_success baseWorld (by decide) (by decide) (by decide)

/-- C5: when the resolved job section of the global configuration lacks
any of the four required options, or maps it to the empty string (i.e.
the looked-up value is not truthy), the execution ends in an
assertion-style failure (an uncaught exception) and neither `scp` nor
`ssh` is ever invoked. -/
theorem missing_remote_option_aborts (w : World) (f : String)
    (rest : List String) (job : String)
    (hargs : w.args = f :: rest) (hjob : w.homeworkJob = some job)
    (hbad : truthy (get_option w.globalConf job "RemoteIP") = false ∨
            truthy (get_option w.globalConf job "RemoteQueue") = false ∨
            truthy (get_option w.globalConf job "RemoteUser") = false ∨
            truthy (get_option w.globalConf job "RemoteNotifier") = false) :
    (∃ m, (main w).outcome = .raised m) ∧ (main w).calls = [] := by
  obtain ⟨prog, args, cpath, hwJob, gconf, scpE, sshE⟩ := w
  subst hargs hjob
  by_cases h1 : truthy (get_option gconf job "RemoteIP") = true <;>
    by_cases h2 : truthy (get_option gconf job "RemoteQueue") = true <;>
      by_cases h3 : truthy (get_option gconf job "RemoteUser") = true <;>
        by_cases h4 : truthy (get_option gconf job "RemoteNotifier") = true <;>
          simp_all [main, h1, h2, h3, h4]

/-- witness for C5 at a concrete world whose job section lacks every
remote option. -/
theorem missing_remote_option_aborts_witness :
    (∃ m, (main { baseWorld with homeworkJob := some "hw2" }).outcome = .raised m) ∧
      (main { baseWorld with homeworkJob := some "hw2" }).calls = [] :=
  missing_remote_option_aborts { baseWorld with homeworkJob := some "hw2" }
    "hw.ini" [] "hw2" rfl rfl (Or.inl (by decide))

/-- C2: in the spec's concrete scenario (`Job=hw1`, section `hw1` holding
`RemoteIP=10.0.0.5`, `RemoteUser=grader`, `RemoteQueue=/srv/queue`,
`RemoteNotifier=notify.sh`), the program invokes exactly
`scp f grader@10.0.0.5:/srv/queue`, and, exactly when that call exits 0,
also `ssh grader@10.0.0.5 /srv/queue/notify.sh` after it. -/
theorem concrete_scenario_commands (w : World) (f : String) (rest : List String)
    (hargs : w.args = f :: rest)
    (hjob : w.homeworkJob = some "hw1")
    (hip : w.globalConf "hw1" "RemoteIP" = some "10.0.0.5")
    (huser : w.globalConf "hw1" "RemoteUser" = some "grader")
    (hqueue : w.globalConf "hw1" "RemoteQueue" = some "/srv/queue")
    (hnot : w.globalConf "hw1" "RemoteNotifier" = some "notify.sh") :
    (w.scpExit ≠ 0 →
      (main w).calls = [["scp", f, "grader@10.0.0.5:/srv/queue"]]) ∧
    (w.scpExit = 0 →
      (main w).calls = [["scp", f, "grader@10.0.0.5:/srv/queue"],
                        ["ssh", "grader@10.0.0.5", "/srv/queue/notify.sh"]]) := by
  refine ⟨fun hs => ?_, fun hs => ?_⟩ <;>
    by_cases h6 : w.sshExit = 0 <;>
      simp [main, hargs, hjob, get_option, hip, huser, hqueue, hnot, truthy,
        os_path_join, hs, h6]

/-- witness for C2 at a concrete world. -/
theorem concrete_scenario_commands_witness :
    ((baseWorld.scpExit ≠ 0 →
        (main baseWorld).calls = [["scp", "hw.ini", "grader@10.0.0.5:/srv/queue"]]) ∧
     (baseWorld.scpExit = 0 →
        (main baseWorld).calls = [["scp", "hw.ini", "grader@10.0.0.5:/srv/queue"],
                                  ["ssh", "grader@10.0.0.5", "/srv/queue/notify.sh"]])) :=
  concrete_scenario_commands baseWorld "hw.ini" [] rfl rfl
    (by decide) (by decide) (by decide) (by decide)

/-- C9: when `RemoteNotifier` is an absolute path (its first character is
`/`), `os.path.join` discards the `RemoteQueue` prefix, so the second
external command is `ssh user@ip notifier` with the notifier path alone
as the remote command argument, not `queue/notifier`. -/
theorem absolute_notifier_discards_queue (w : World) (f : String)
    (rest : List String) (job ip queue user nf : String)
    (hargs : w.args = f :: rest) (hjob : w.homeworkJob = some job)
    (hip : w.globalConf job "RemoteIP" = some ip) (hipne : ip ≠ "")
    (hqueue : w.globalConf job "RemoteQueue" = some queue) (hqne : queue ≠ "")
    (huser : w.globalConf job "RemoteUser" = some user) (hune : user ≠ "")
    (hnf : w.globalConf job "RemoteNotifier" = some nf)
    (habs : nf.data.head? = some '/')
    (hscp : w.scpExit = 0) :
    (main w).calls =
      [["scp", f, user ++ "@" ++ ip ++ ":" ++ queue],
       ["ssh", user ++ "@" ++ ip, nf]] := by
  have hnfne : nf ≠ "" := by
    intro h
    rw [h] at habs
    exact Option.noConfusion habs
  by_cases h6 : w.sshExit = 0 <;>
    simp [main, hargs, hjob, get_option, hip, hqueue, huser, hnf, truthy,
      os_path_join, hipne, hqne, hune, hnfne, habs, hscp, h6]

/-- witness for C9 at a concrete world whose notifier is the absolute
path `/opt/notify.sh`. -/
theorem absolute_notifier_discards_queue_witness :
    (main { baseWorld with
              globalConf := fun sect opt =>
                if sect = "hw1" ∧ opt = "RemoteNotifier" then some "/opt/notify.sh"
                else sampleConf sect opt }).calls =
      [["scp", "hw.ini", "grader@10.0.0.5:/srv/queue"],
       ["ssh", "grader@10.0.0.5", "/opt/notify.sh"]] :=
  absolute_notifier_discards_queue
    { baseWorld with
        globalConf := fun sect opt =>
          if sect = "hw1" ∧ opt = "RemoteNotifier" then some "/opt/notify.sh"
          else sampleConf sect opt }
    "hw.ini" [] "hw1" "10.0.0.5" "/srv/queue" "grader" "/opt/notify.sh"
    rfl rfl (by decide) (by decide) (by decide) (by decide) (by decide)
    (by decide) (by decide) rfl (by decide)

end RemoteCheck
